import Mathlib

/-!
Verification of the session/request-authorization flow of the Full-Stack
Todo client. The definitions below are a shallow embedding of the client
code: the `apiRequest` API client, the `handleLogout` handler of the
header component, the `handleToggleTask` handler and `AuthGuard` wiring of
the todos page, and the redirect effect of the home page. Parts of the
client whose bodies are not among the sources (the `useAuth` hook
internals and the `AuthGuard` component body) are modelled from the
specification, as marked on their doc comments.
-/

namespace TodoApp

/-- A JavaScript object literal built from successive key/value insertions
and spreads, as used for the `headers` object of a fetch call: a list of
bindings in insertion order, where a later binding for the same key
overrides an earlier one. -/
abbrev Headers := List (String × String)

/-- Lookup in a `Headers` object: the value of the last binding for the
key, matching JavaScript object-literal semantics where later spread
entries override earlier ones. -/
def getHeader (hs : Headers) (k : String) : Option String :=
  (hs.reverse.find? (fun p => p.1 == k)).map Prod.snd

/-- The browser localStorage slots the client uses: the persisted JWT
under key `auth_token` and the cached user under key `user`. `none`
models an absent key (`localStorage.getItem` returning `null`). -/
structure Storage where
  auth_token : Option String
  user : Option String
deriving Repr, DecidableEq

/-- The caller-supplied `options` object of `apiRequest(endpoint, options)`:
extra headers, and an optional caller-supplied abort-signal timeout (which
the client in fact always overrides). -/
structure RequestOptions where
  headers : Headers := []
  signalTimeoutMs : Option Nat := none
deriving Repr

/-- JavaScript truthiness of the value returned by
`localStorage.getItem('auth_token')`: `null` and the empty string are
falsy, every other string is truthy. -/
def tokenTruthy : Option String → Bool
  | none => false
  | some t => !(t == "")

/-- The headers object built by `apiRequest`:
`{'Content-Type': 'application/json', ...(token && {Authorization: ...}), ...options.headers}`.
The conditional spread contributes the Authorization binding only when the
token is truthy; the caller's headers are spread last and so override. -/
def buildHeaders (token : Option String) (optHeaders : Headers) : Headers :=
  [("Content-Type", "application/json")]
    ++ (if tokenTruthy token then [("Authorization", "Bearer " ++ token.getD "")] else [])
    ++ optHeaders

/-- The request handed to `fetch`: its headers object and the abort-signal
timeout. The client writes `signal: AbortSignal.timeout(5000)` after
spreading `options`, so the timeout is always 5000 ms. -/
structure BuiltRequest where
  headers : Headers
  timeoutMs : Nat
deriving Repr, DecidableEq

/-- An HTTP response as `apiRequest` observes it: a status code and a
JSON body (what `response.json()` resolves to). -/
structure HttpResponse where
  status : Nat
  body : String
deriving Repr, DecidableEq

/-- Outcome of the `fetch` call: either the promise rejects (network
error, or the 5 s abort signal firing) before any response exists, or a
response arrives. -/
inductive FetchResult
  | networkError
  | success (resp : HttpResponse)
deriving Repr, DecidableEq

/-- A localStorage operation performed by `apiRequest`, recorded so that
the number of token removals is observable. -/
inductive StorageOp
  | getItem (key : String)
  | removeItem (key : String)
deriving Repr, DecidableEq

/-- Effect of one localStorage operation on the storage contents. -/
def applyOp (st : Storage) : StorageOp → Storage
  | .getItem _ => st
  | .removeItem k =>
    if k == "auth_token" then { st with auth_token := none }
    else if k == "user" then { st with user := none }
    else st

/-- The errors `apiRequest` can surface to its caller: a rejected fetch
promise propagating (network failure or timeout), or the
`Error('Authentication required')` it throws itself on a 401. -/
inductive ApiError
  | network
  | authRequired
deriving Repr, DecidableEq

/-- Everything observable about one execution of `apiRequest`: the
localStorage operations it performed in order, the request it handed to
`fetch`, how many fetch calls it made, the `window.location.href`
assignment if any, and the value returned or error thrown. -/
structure ApiOutcome where
  trace : List StorageOp
  request : BuiltRequest
  fetchCount : Nat
  redirect : Option String
  result : Except ApiError String
deriving Repr

/-- The storage contents after an `apiRequest` execution: its recorded
operations applied in order to the initial contents. -/
def finalStorage (st : Storage) (o : ApiOutcome) : Storage :=
  o.trace.foldl applyOp st

/-- The API client `apiRequest` of src/lib/api.ts, as reproduced in the
repository README: reads the token, issues one fetch with merged headers
and a 5000 ms abort signal; on a 401 response removes `auth_token` and
`user` from localStorage, sets `window.location.href = '/login'` and
throws; on any other response returns the parsed body; a rejected fetch
propagates with nothing else executed. -/
def apiRequest (st : Storage) (options : RequestOptions) (fetchRes : FetchResult) : ApiOutcome :=
  let token := st.auth_token
  let req : BuiltRequest := { headers := buildHeaders token options.headers, timeoutMs := 5000 }
  match fetchRes with
  | .networkError =>
    { trace := [.getItem "auth_token"], request := req, fetchCount := 1,
      redirect := none, result := .error .network }
  | .success resp =>
    if resp.status == 401 then
      { trace := [.getItem "auth_token", .removeItem "auth_token", .removeItem "user"],
        request := req, fetchCount := 1,
        redirect := some "/login", result := .error .authRequired }
    else
      { trace := [.getItem "auth_token"], request := req, fetchCount := 1,
        redirect := none, result := .ok resp.body }

/-- Auxiliary list fact: if no element of the first list satisfies the
predicate, searching the concatenation searches the second list. -/
theorem find?_append_of_none {α : Type} (p : α → Bool) (l1 l2 : List α)
    (h : l1.find? p = none) : (l1 ++ l2).find? p = l2.find? p := by
  induction l1 with
  | nil => simp
  | cons a l ih =>
    have hall : ∀ x ∈ a :: l, ¬ p x = true := List.find?_eq_none.mp h
    have ha : ¬ p a = true := hall a (List.mem_cons_self a l)
    have hl : l.find? p = none := List.find?_eq_none.mpr fun x hx => hall x (List.mem_cons_of_mem a hx)
    rw [List.cons_append, List.find?_cons_of_neg _ ha]
    exact ih hl

/-- The Authorization entry of the headers object built by `apiRequest`,
assuming the caller's own headers do not carry one: present exactly when
the stored token is truthy. -/
theorem getHeader_buildHeaders_auth (tok : Option String) (opts : Headers)
    (hopt : getHeader opts "Authorization" = none) :
    getHeader (buildHeaders tok opts) "Authorization" =
      if tokenTruthy tok then some ("Bearer " ++ tok.getD "") else none := by
  have hfind : opts.reverse.find? (fun p => p.1 == "Authorization") = none := by
    have := hopt
    unfold getHeader at this
    exact Option.map_eq_none'.mp this
  unfold getHeader buildHeaders
  cases htr : tokenTruthy tok with
  | true =>
    simp only [htr, if_true, List.reverse_append, List.reverse_cons, List.reverse_nil,
      List.nil_append, List.append_assoc]
    rw [find?_append_of_none _ _ _ hfind]
    simp [List.find?]
  | false =>
    simp only [htr, if_false, List.append_nil, List.reverse_append, List.reverse_cons,
      List.reverse_nil, List.nil_append]
    rw [find?_append_of_none _ _ _ hfind]
    simp [List.find?]

/-- Claim C1: a request through `apiRequest` whose response has status 401
removes the persisted token exactly once (one `removeItem('auth_token')`
in the storage trace), leaves storage with no token and no user, assigns
`window.location.href = '/login'`, throws rather than returning a value,
and performs exactly one fetch, so the request is never re-attempted. -/
theorem apiRequest_unauthorized_clears_session_once
    (st : Storage) (options : RequestOptions) (resp : HttpResponse)
    (h : resp.status = 401) :
    (apiRequest st options (.success resp)).trace.count (StorageOp.removeItem "auth_token") = 1 ∧
    (finalStorage st (apiRequest st options (.success resp))).auth_token = none ∧
    (finalStorage st (apiRequest st options (.success resp))).user = none ∧
    (apiRequest st options (.success resp)).redirect = some "/login" ∧
    (apiRequest st options (.success resp)).result = Except.error ApiError.authRequired ∧
    (apiRequest st options (.success resp)).fetchCount = 1 := by
  obtain ⟨s, b⟩ := resp
  simp only at h
  subst h
  refine ⟨?_, ?_, ?_, ?_, ?_, ?_⟩ <;>
    simp [apiRequest, finalStorage, applyOp, List.count_cons, List.count_nil]

/-- Concrete instantiation of C1: a 401 response with a token and user in
storage clears both, redirects to /login and throws. -/
theorem apiRequest_unauthorized_clears_session_once_witness :
    (apiRequest ⟨some "tok", some "alice"⟩ {} (.success ⟨401, "e"⟩)).trace.count
        (StorageOp.removeItem "auth_token") = 1 ∧
    (finalStorage ⟨some "tok", some "alice"⟩
        (apiRequest ⟨some "tok", some "alice"⟩ {} (.success ⟨401, "e"⟩))).auth_token = none ∧
    (finalStorage ⟨some "tok", some "alice"⟩
        (apiRequest ⟨some "tok", some "alice"⟩ {} (.success ⟨401, "e"⟩))).user = none ∧
    (apiRequest ⟨some "tok", some "alice"⟩ {} (.success ⟨401, "e"⟩)).redirect = some "/login" ∧
    (apiRequest ⟨some "tok", some "alice"⟩ {} (.success ⟨401, "e"⟩)).result
        = Except.error ApiError.authRequired ∧
    (apiRequest ⟨some "tok", some "alice"⟩ {} (.success ⟨401, "e"⟩)).fetchCount = 1 :=
  apiRequest_unauthorized_clears_session_once ⟨some "tok", some "alice"⟩ {} ⟨401, "e"⟩ rfl

/-- Claim C3: a request through `apiRequest` whose fetch rejects (network
error or timeout, no HTTP response) surfaces an error to the caller and
leaves the storage contents exactly as they were, with no redirect. -/
theorem apiRequest_network_error_preserves_session
    (st : Storage) (options : RequestOptions) :
    (apiRequest st options FetchResult.networkError).result = Except.error ApiError.network ∧
    finalStorage st (apiRequest st options FetchResult.networkError) = st ∧
    (apiRequest st options FetchResult.networkError).redirect = none := by
  refine ⟨rfl, ?_, rfl⟩
  simp [apiRequest, finalStorage, applyOp]

/-- Counterexample to claim C4: a request answered with HTTP status 400 is
not propagated as a typed failure — `apiRequest` returns the parsed
response body as a successful result, because the code checks only for
status 401 and otherwise executes `return response.json()`. -/
theorem apiRequest_status400_returns_success :
    (apiRequest ⟨some "tok", some "alice"⟩ {} (.success ⟨400, "bad request"⟩)).result
      = Except.ok "bad request" :=
  rfl

/-- Amended claim C4: for every response with an HTTP status other than
401 (success or error alike), `apiRequest` does not raise a typed
failure; it parses the response body and returns it to the caller as a
successful result, leaving storage untouched and issuing no redirect. -/
theorem apiRequest_other_status_returns_parsed_body
    (st : Storage) (options : RequestOptions) (resp : HttpResponse)
    (h : resp.status ≠ 401) :
    (apiRequest st options (.success resp)).result = Except.ok resp.body ∧
    finalStorage st (apiRequest st options (.success resp)) = st ∧
    (apiRequest st options (.success resp)).redirect = none := by
  obtain ⟨s, b⟩ := resp
  simp only at h
  have hs : (s == 401) = false := by
    simpa using h
  refine ⟨?_, ?_, ?_⟩ <;> simp [apiRequest, hs, finalStorage, applyOp]

/-- Concrete instantiation of amended C4: a 500 response's body is
returned to the caller, the session untouched. -/
theorem apiRequest_other_status_returns_parsed_body_witness :
    (apiRequest ⟨some "tok", none⟩ {} (.success ⟨500, "oops"⟩)).result
        = Except.ok (HttpResponse.mk 500 "oops").body ∧
    finalStorage ⟨some "tok", none⟩ (apiRequest ⟨some "tok", none⟩ {} (.success ⟨500, "oops"⟩))
        = ⟨some "tok", none⟩ ∧
    (apiRequest ⟨some "tok", none⟩ {} (.success ⟨500, "oops"⟩)).redirect = none :=
  apiRequest_other_status_returns_parsed_body ⟨some "tok", none⟩ {} ⟨500, "oops"⟩ (by decide)

/-- Claim C5: on every request through `apiRequest` whose caller does not
itself set an Authorization header, the outgoing request carries
`Authorization: Bearer <token>` exactly when a (nonempty) token is stored,
and carries no Authorization header when no token is stored. -/
theorem apiRequest_bearer_header
    (st : Storage) (options : RequestOptions) (fr : FetchResult)
    (hopt : getHeader options.headers "Authorization" = none)
    (hne : ∀ t, st.auth_token = some t → t ≠ "") :
    getHeader (apiRequest st options fr).request.headers "Authorization"
      = st.auth_token.map (fun t => "Bearer " ++ t) := by
  have hreq : (apiRequest st options fr).request.headers
      = buildHeaders st.auth_token options.headers := by
    cases fr with
    | networkError => rfl
    | success resp =>
      simp only [apiRequest]
      split <;> rfl
  rw [hreq, getHeader_buildHeaders_auth _ _ hopt]
  cases htok : st.auth_token with
  | none => simp [tokenTruthy]
  | some t =>
    have hne' : t ≠ "" := hne t htok
    simp [tokenTruthy, hne']

/-- Concrete instantiation of C5: with token "abc123" stored and no
caller headers, the built request carries the bearer header. -/
theorem apiRequest_bearer_header_witness :
    getHeader (apiRequest ⟨some "abc123", none⟩ {} FetchResult.networkError).request.headers
        "Authorization"
      = (Storage.mk (some "abc123") none).auth_token.map (fun t => "Bearer " ++ t) :=
  apiRequest_bearer_header ⟨some "abc123", none⟩ {} FetchResult.networkError rfl
    (by intro t ht; simp only [Option.some.injEq] at ht; subst ht; decide)

/-- Claim C6: every request issued through `apiRequest` carries an abort
signal of exactly 5000 ms, for every storage state, every caller-supplied
options object (including any caller-supplied signal, which the client
overrides) and every fetch outcome: the timeout is the sole, fixed form
of cancellation. -/
theorem apiRequest_fixed_timeout
    (st : Storage) (options : RequestOptions) (fr : FetchResult) :
    (apiRequest st options fr).request.timeoutMs = 5000 := by
  cases fr with
  | networkError => rfl
  | success resp =>
    simp only [apiRequest]
    split <;> rfl

/-- In-memory authentication state held by the client (token and user),
as cleared by `logout()`. -/
structure AuthState where
  token : Option String
  user : Option String
deriving Repr, DecidableEq

/-- Modelled from the spec: the body of `logout()` in src/hooks/useAuth.ts
is not among the sources; per the spec it "best-effort notifies the
server, then unconditionally clears persisted token and local state —
clearing proceeds even if the server call fails". `serverOk` is the
outcome of the server notification; the cleared state is produced in
either case, and a failed server call is reported to the caller as an
error after the clearing. -/
def logout (_st : AuthState) (serverOk : Bool) : AuthState × Except String Unit :=
  ({ token := none, user := none },
   if serverOk then Except.ok () else Except.error "logout failed")

/-- The `handleLogout` handler of the Header component: awaits `logout()`
and pushes the router to `/login`; if `logout()` throws, the catch block
logs the error and still pushes `/login`. Returns the resulting auth
state and the route pushed. -/
def handleLogout (st : AuthState) (serverOk : Bool) : AuthState × String :=
  match logout st serverOk with
  | (st2, Except.ok _) => (st2, "/login")
  | (st2, Except.error _) => (st2, "/login")

/-- Claim C2: every execution of the logout flow clears the persisted
token and local user state and ends at the login page, whether or not the
server-side logout call succeeds. -/
theorem handleLogout_clears_and_redirects (st : AuthState) (serverOk : Bool) :
    (handleLogout st serverOk).1.token = none ∧
    (handleLogout st serverOk).1.user = none ∧
    (handleLogout st serverOk).2 = "/login" := by
  cases serverOk <;> exact ⟨rfl, rfl, rfl⟩

/-- Result of running the startup restore logic: whether the client is
authenticated, the token it holds, and how many login calls it issued. -/
structure RestoreOutcome where
  isAuthenticated : Bool
  token : Option String
  loginCalls : Nat
deriving Repr, DecidableEq

/-- Modelled from the spec: the body of `restore()` (the `useAuth` startup
effect of src/hooks/useAuth.ts) is not among the sources; per the spec it
"reads persisted token at startup; if absent, state = unauthenticated; if
present, optimistically treats it as valid pending first API
confirmation", issuing no login call of its own. -/
def restore (storedToken : Option String) : RestoreOutcome :=
  match storedToken with
  | none => { isAuthenticated := false, token := none, loginCalls := 0 }
  | some t => { isAuthenticated := true, token := some t, loginCalls := 0 }

/-- Claim C7: restoring with no persisted token yields the unauthenticated
state; restoring with a persisted token yields the authenticated state
holding that token, with no login call issued in either case. -/
theorem restore_startup_states :
    (restore none).isAuthenticated = false ∧
    (restore none).loginCalls = 0 ∧
    (∀ t : String, (restore (some t)).isAuthenticated = true ∧
      (restore (some t)).token = some t ∧ (restore (some t)).loginCalls = 0) :=
  ⟨rfl, rfl, fun _ => ⟨rfl, rfl, rfl⟩⟩

/-- A task as held by the client: id, title, optional description,
completion flag and creation time. -/
structure Task where
  id : String
  title : String
  description : Option String
  completed : Bool
  createdAt : Nat
deriving Repr, DecidableEq

/-- Modelled from the spec: the toggle operation (useTasks' `toggleTask`,
backed by PATCH /api/tasks/{id}/toggle) is not among the sources; per the
spec and README it toggles the task's completion status — marking it
complete if incomplete and incomplete if complete — leaving the other
fields unchanged. -/
def toggleTask (t : Task) : Task :=
  { t with completed := !t.completed }

/-- The `handleToggleTask` handler of the todos page applied at the list
level: the task with the given id has its completion flag toggled, other
tasks are unchanged. -/
def handleToggleTask (tasks : List Task) (id : String) : List Task :=
  tasks.map fun t => if t.id == id then toggleTask t else t

/-- Claim C8: toggling a task twice returns it to its original completion
state — toggling is an involution on a task, and toggling the same id
twice returns the whole task list to its original state. -/
theorem handleToggleTask_involution :
    (∀ t : Task, toggleTask (toggleTask t) = t) ∧
    (∀ (tasks : List Task) (id : String),
      handleToggleTask (handleToggleTask tasks id) id = tasks) := by
  have hsingle : ∀ t : Task, toggleTask (toggleTask t) = t := by
    intro t
    simp [toggleTask]
  refine ⟨hsingle, ?_⟩
  intro tasks id
  induction tasks with
  | nil => rfl
  | cons t ts ih =>
    simp only [handleToggleTask, List.map_cons] at ih ⊢
    rw [ih]
    cases hid : t.id == id with
    | true => simp [hid, toggleTask]
    | false => simp [hid]

/-- A client-side session: the bearer token and the logged-in user's name. -/
structure Session where
  token : String
  username : String
deriving Repr, DecidableEq

/-- The two authentication states of the client: unauthenticated, or
authenticated with one session. -/
inductive AuthStatus
  | unauthenticated
  | authenticated (s : Session)
deriving Repr, DecidableEq

/-- The number of sessions the client currently holds. -/
def activeSessions : AuthStatus → Nat
  | .unauthenticated => 0
  | .authenticated _ => 1

/-- The observable client state: authentication status, current route,
and the tasks currently displayed. -/
structure ClientState where
  auth : AuthStatus
  route : String
  displayedTasks : List Task
deriving Repr, DecidableEq

/-- Modelled from the spec: the body of AuthGuard
(src/components/auth/AuthGuard.tsx) is not among the sources; per the
README it wraps protected pages, checks whether the user is
authenticated, redirects to `/login` if not, and only then renders the
protected children. Returns the tasks actually rendered and the redirect
issued, if any. -/
def authGuard (auth : AuthStatus) (children : List Task) : List Task × Option String :=
  match auth with
  | .authenticated _ => (children, none)
  | .unauthenticated => ([], some "/login")

/-- The client events that change authentication or task display: a
successful login, a logout click (the Header's `handleLogout`), a 401
response (the `apiRequest` 401 branch), a visit to the guarded todos page
(`TodosPage` wrapped in `AuthGuard`), and a visit to the login page. -/
inductive Event
  | loginSuccess (s : Session)
  | logoutClick
  | receive401
  | visitTodos (tasks : List Task)
  | visitLogin
deriving Repr

/-- One client transition. A successful login installs the session and
navigates to the todos page; logout and a 401 both clear the session and
land on the login page, no tasks displayed; a visit to the todos page
shows tasks only as the `authGuard` allows; a visit to the login page
displays no tasks. -/
def clientStep (st : ClientState) : Event → ClientState
  | .loginSuccess s => { auth := .authenticated s, route := "/todos", displayedTasks := [] }
  | .logoutClick => { auth := .unauthenticated, route := "/login", displayedTasks := [] }
  | .receive401 => { auth := .unauthenticated, route := "/login", displayedTasks := [] }
  | .visitTodos tasks =>
    { auth := st.auth,
      route := (authGuard st.auth tasks).2.getD "/todos",
      displayedTasks := (authGuard st.auth tasks).1 }
  | .visitLogin => { st with route := "/login", displayedTasks := [] }

/-- The client state right after `restore()` ran at startup: authenticated
exactly when a token was persisted, on the home route, with nothing
displayed yet. -/
def initState (storedToken : Option String) (uname : String) : ClientState :=
  match storedToken with
  | none => { auth := .unauthenticated, route := "/", displayedTasks := [] }
  | some t => { auth := .authenticated ⟨t, uname⟩, route := "/", displayedTasks := [] }

/-- The client states reachable from some startup state by client events. -/
inductive Reachable : ClientState → Prop
  | init (storedToken : Option String) (uname : String) : Reachable (initState storedToken uname)
  | step {st : ClientState} (e : Event) : Reachable st → Reachable (clientStep st e)

/-- Claim C9: in every reachable client state at most one session is
active, and tasks are displayed only when a session is active (the todos
page is reachable only through the authentication guard). -/
theorem reachable_session_invariant (st : ClientState) (h : Reachable st) :
    activeSessions st.auth ≤ 1 ∧
    (st.displayedTasks ≠ [] → ∃ s, st.auth = AuthStatus.authenticated s) := by
  have hle : ∀ a : AuthStatus, activeSessions a ≤ 1 := by
    intro a
    cases a <;> simp [activeSessions]
  induction h with
  | init storedToken uname =>
    refine ⟨hle _, ?_⟩
    cases storedToken <;> simp [initState]
  | step e hst ih =>
    rename_i stPrev
    refine ⟨hle _, ?_⟩
    cases e with
    | loginSuccess s => intro _; exact ⟨s, rfl⟩
    | logoutClick => simp [clientStep]
    | receive401 => simp [clientStep]
    | visitLogin => simp [clientStep]
    | visitTodos tasks =>
      intro hne
      cases ha : stPrev.auth with
      | unauthenticated =>
        exfalso
        apply hne
        simp [clientStep, authGuard, ha]
      | authenticated s =>
        exact ⟨s, by simp [clientStep, ha]⟩

/-- Concrete instantiation of C9 at the startup state with no stored
token: no session is active and no tasks are displayed. -/
theorem reachable_session_invariant_witness :
    activeSessions (initState none "").auth ≤ 1 ∧
    ((initState none "").displayedTasks ≠ [] →
      ∃ s, (initState none "").auth = AuthStatus.authenticated s) :=
  reachable_session_invariant (initState none "") (Reachable.init none "")

/-- The redirect effect of the home page: while the authentication check
is loading, no navigation is issued; once loading is done, the router is
pushed to `/todos` when authenticated and `/login` otherwise. -/
def homePageRedirect (loading isAuthenticated : Bool) : Option String :=
  if loading then none
  else if isAuthenticated then some "/todos" else some "/login"

/-- Claim C10: while the authentication check is loading the home page
issues no redirect; once loading completes it redirects to exactly one
destination, `/todos` when authenticated and `/login` otherwise. -/
theorem homePageRedirect_behaviour (isAuth : Bool) :
    homePageRedirect true isAuth = none ∧
    homePageRedirect false isAuth = some (if isAuth then "/todos" else "/login") := by
  cases isAuth <;> exact ⟨rfl, rfl⟩

end TodoApp
